import Mathlib

/-!
Shallow embedding of `src/Tethering/jni/onload.cpp`.

The single function in the source is `JNI_OnLoad`: it asks the host VM for a
`JNIEnv` handle at ABI version `JNI_VERSION_1_6`; on failure it emits one
fatal log line and returns `JNI_ERR`; on success it invokes four external
registration functions in a fixed order, short-circuiting with `JNI_ERR` on
the first negative result, and returns `JNI_VERSION_1_6` when all succeed.

The external world (the VM's `GetEnv` outcome, the environment handle it
writes, and the integer results of the five declared registration functions)
is modelled as a `Host` record of mocked values. `JNI_OnLoad` returns the
integer token together with the ordered trace of observable events
(fatal log lines and registration calls, each call recording the environment
handle it received and, where applicable, the class-name string argument).
-/

namespace Onload

/-- The JNI status constant `JNI_OK` (0). -/
def JNI_OK : Int := 0

/-- The JNI generic error constant `JNI_ERR` (-1). -/
def JNI_ERR : Int := -1

/-- The JNI ABI version constant `JNI_VERSION_1_6` (0x00010006). -/
def JNI_VERSION_1_6 : Int := 65542

/-- Mocked external world for one invocation of `JNI_OnLoad`: the status the
VM's `GetEnv` returns, the environment handle it writes on success, and the
integer result each of the five declared registration functions would return
if called. -/
structure Host where
  getEnvStatus : Int
  envHandle : Nat
  regTetheringUtils : Int
  regBpfMap : Int
  regTcUtils : Int
  regBpfCoordinator : Int
  regBpfUtils : Int
deriving DecidableEq, Repr

/-- One registration call, recording the environment handle it received and,
for the two name-taking functions, the class-name string argument. The five
constructors correspond to the five registration functions declared in
`onload.cpp`. -/
inductive RegCall where
  | tetheringUtils (env : Nat)
  | bpfMap (env : Nat) (class_name : String)
  | tcUtils (env : Nat) (class_name : String)
  | bpfCoordinator (env : Nat)
  | bpfUtils (env : Nat)
deriving DecidableEq, Repr

/-- An observable event of `JNI_OnLoad`: a fatal-severity log line
(`__android_log_print(ANDROID_LOG_FATAL, tag, msg)`) or a registration call. -/
inductive Event where
  | fatalLog (tag : String) (msg : String)
  | call (c : RegCall)
deriving DecidableEq, Repr

/-- Embedding of `JNI_OnLoad` from `onload.cpp`. Returns the `jint` result
together with the ordered trace of observable events. The source:

`if (vm->GetEnv(&env, JNI_VERSION_1_6) != JNI_OK) { log fatal; return JNI_ERR; }`
then four guarded registration calls, each `if (register_...(env, ...) < 0)
return JNI_ERR;`, finally `return JNI_VERSION_1_6;`. -/
def JNI_OnLoad (h : Host) : Int × List Event :=
  if h.getEnvStatus ≠ JNI_OK then
    (JNI_ERR, [Event.fatalLog "TetheringJni" "ERROR: GetEnv failed"])
  else
    let env := h.envHandle
    let e1 := Event.call (RegCall.tetheringUtils env)
    if h.regTetheringUtils < 0 then (JNI_ERR, [e1]) else
    let e2 := Event.call (RegCall.bpfMap env
      "com/android/networkstack/tethering/util/BpfMap")
    if h.regBpfMap < 0 then (JNI_ERR, [e1, e2]) else
    let e3 := Event.call (RegCall.tcUtils env
      "com/android/networkstack/tethering/util/TcUtils")
    if h.regTcUtils < 0 then (JNI_ERR, [e1, e2, e3]) else
    let e4 := Event.call (RegCall.bpfCoordinator env)
    if h.regBpfCoordinator < 0 then (JNI_ERR, [e1, e2, e3, e4]) else
    (JNI_VERSION_1_6, [e1, e2, e3, e4])

/-- Position of a registration function in the fixed declared order:
1 = TetheringUtils, 2 = BpfMap, 3 = TcUtils, 4 = BpfCoordinator,
5 = BpfUtils. -/
def RegCall.index : RegCall → Nat
  | .tetheringUtils _ => 1
  | .bpfMap _ _ => 2
  | .tcUtils _ _ => 3
  | .bpfCoordinator _ => 4
  | .bpfUtils _ => 5

/-- The registration index of an event, or `none` for a log line. -/
def Event.regIndex : Event → Option Nat
  | .fatalLog _ _ => none
  | .call c => some c.index

/-- Whether an event is a fatal log line. -/
def Event.isFatalLog : Event → Bool
  | .fatalLog _ _ => true
  | .call _ => false

/-- The sequence of registration-function indices called by `JNI_OnLoad`,
in order. -/
def regTrace (h : Host) : List Nat :=
  (JNI_OnLoad h).2.filterMap Event.regIndex

/-- Whether `JNI_OnLoad` invokes the registration function at index `n`. -/
def invoked (h : Host) (n : Nat) : Bool :=
  (regTrace h).any (fun m => m == n)

/-- Number of fatal log lines `JNI_OnLoad` emits. -/
def fatalLogCount (h : Host) : Nat :=
  ((JNI_OnLoad h).2.filter Event.isFatalLog).length

/-- The mocked result of the registration function at index `n` (1..4). -/
def regResult (h : Host) : Nat → Int
  | 1 => h.regTetheringUtils
  | 2 => h.regBpfMap
  | 3 => h.regTcUtils
  | 4 => h.regBpfCoordinator
  | _ => h.regBpfUtils

/-- The call event the `n`th registration step of `JNI_OnLoad` produces for
host `h` (spec-side description used to state ordering claims). -/
def callEventOf (h : Host) : Nat → Event
  | 1 => .call (.tetheringUtils h.envHandle)
  | 2 => .call (.bpfMap h.envHandle
      "com/android/networkstack/tethering/util/BpfMap")
  | 3 => .call (.tcUtils h.envHandle
      "com/android/networkstack/tethering/util/TcUtils")
  | 4 => .call (.bpfCoordinator h.envHandle)
  | _ => .call (.bpfUtils h.envHandle)

/-- How many registration calls `JNI_OnLoad` attempts when the environment is
available: the index of the first failing call, or 4 when none of the first
three fails (the fourth is attempted in either case). -/
def attemptedCalls (h : Host) : Nat :=
  if h.regTetheringUtils < 0 then 1
  else if h.regBpfMap < 0 then 2
  else if h.regTcUtils < 0 then 3
  else 4

/-- Concrete host: `GetEnv` succeeds and all four registrations return 0. -/
def hostAllZero : Host := ⟨0, 7, 0, 0, 0, 0, 0⟩

/-- Concrete host: `GetEnv` succeeds, first registration returns 0, second
returns -1, later results arbitrary. -/
def hostFailSecond : Host := ⟨0, 7, 0, -1, 3, 5, 0⟩

/-- Concrete host: `GetEnv` returns `JNI_EDETACHED` (-2). -/
def hostNoEnv : Host := ⟨-2, 7, 0, 0, 0, 0, 0⟩

/-- C1: if environment acquisition succeeds and all four registration calls
return non-negative values, `JNI_OnLoad` returns the success token
`JNI_VERSION_1_6`. -/
theorem c1_all_nonneg_success (h : Host) (hok : h.getEnvStatus = JNI_OK)
    (h1 : 0 ≤ h.regTetheringUtils) (h2 : 0 ≤ h.regBpfMap)
    (h3 : 0 ≤ h.regTcUtils) (h4 : 0 ≤ h.regBpfCoordinator) :
    (JNI_OnLoad h).1 = JNI_VERSION_1_6 := by
  simp [JNI_OnLoad, hok, not_lt.mpr h1, not_lt.mpr h2, not_lt.mpr h3,
    not_lt.mpr h4]

/-- Witness for C1: with the concrete registration-result sequence
`[0, 0, 0, 0]` the result is the success token. -/
theorem c1_all_nonneg_success_witness :
    (JNI_OnLoad hostAllZero).1 = JNI_VERSION_1_6 :=
  c1_all_nonneg_success hostAllZero (by decide) (by decide) (by decide)
    (by decide) (by decide)

/-- C2: if the `n`th registration call (n = 1..4, fixed order) returns a
negative value while all earlier ones returned non-negative values, then
`JNI_OnLoad` returns `JNI_ERR` and no registration call after the `n`th is
invoked. -/
theorem c2_first_failure_short_circuits (h : Host) (n : Nat)
    (hok : h.getEnvStatus = JNI_OK) (hn1 : 1 ≤ n) (hn4 : n ≤ 4)
    (hfail : regResult h n < 0)
    (hearlier : ∀ m, 1 ≤ m → m < n → 0 ≤ regResult h m) :
    (JNI_OnLoad h).1 = JNI_ERR ∧ ∀ m, n < m → invoked h m = false := by
  interval_cases n
  · have hf : h.regTetheringUtils < 0 := hfail
    refine ⟨?_, ?_⟩
    · simp [JNI_OnLoad, hok, hf, JNI_ERR]
    · intro m hm
      simp [invoked, regTrace, JNI_OnLoad, hok, hf, Event.regIndex,
        RegCall.index]
      omega
  · have e1 : 0 ≤ h.regTetheringUtils := hearlier 1 (by omega) (by omega)
    refine ⟨?_, ?_⟩
    · simp [JNI_OnLoad, hok, not_lt.mpr e1, regResult] at *
      simp [hfail, JNI_ERR]
    · intro m hm
      simp only [invoked, regTrace, JNI_OnLoad, hok, regResult] at *
      simp [not_lt.mpr e1, hfail, Event.regIndex, RegCall.index]
      omega
  · have e1 : 0 ≤ h.regTetheringUtils := hearlier 1 (by omega) (by omega)
    have e2 : 0 ≤ h.regBpfMap := hearlier 2 (by omega) (by omega)
    refine ⟨?_, ?_⟩
    · simp only [JNI_OnLoad, hok, regResult] at *
      simp [not_lt.mpr e1, not_lt.mpr e2, hfail, JNI_ERR]
    · intro m hm
      simp only [invoked, regTrace, JNI_OnLoad, hok, regResult] at *
      simp [not_lt.mpr e1, not_lt.mpr e2, hfail, Event.regIndex, RegCall.index]
      omega
  · have e1 : 0 ≤ h.regTetheringUtils := hearlier 1 (by omega) (by omega)
    have e2 : 0 ≤ h.regBpfMap := hearlier 2 (by omega) (by omega)
    have e3 : 0 ≤ h.regTcUtils := hearlier 3 (by omega) (by omega)
    refine ⟨?_, ?_⟩
    · simp only [JNI_OnLoad, hok, regResult] at *
      simp [not_lt.mpr e1, not_lt.mpr e2, not_lt.mpr e3, hfail, JNI_ERR]
    · intro m hm
      simp only [invoked, regTrace, JNI_OnLoad, hok, regResult] at *
      simp [not_lt.mpr e1, not_lt.mpr e2, not_lt.mpr e3, hfail,
        Event.regIndex, RegCall.index]
      omega

/-- Witness for C2: with the registration-result sequence `[0, -1, 3, 5]` the
result is the error token and the 3rd and 4th registration functions are not
invoked. -/
theorem c2_first_failure_short_circuits_witness :
    (JNI_OnLoad hostFailSecond).1 = JNI_ERR ∧
      invoked hostFailSecond 3 = false ∧ invoked hostFailSecond 4 = false := by
  have H := c2_first_failure_short_circuits hostFailSecond 2 (by decide)
    (by decide) (by decide) (by decide)
    (by intro m h1 h2; interval_cases m; decide)
  exact ⟨H.1, H.2 3 (by decide), H.2 4 (by decide)⟩

/-- C3: if environment acquisition fails, `JNI_OnLoad` returns `JNI_ERR`,
emits exactly the one fatal log line, and invokes no registration
function. -/
theorem c3_getenv_failure (h : Host) (hbad : h.getEnvStatus ≠ JNI_OK) :
    (JNI_OnLoad h).1 = JNI_ERR ∧
      (JNI_OnLoad h).2 = [Event.fatalLog "TetheringJni" "ERROR: GetEnv failed"] ∧
      ∀ n, invoked h n = false := by
  refine ⟨?_, ?_, ?_⟩
  · simp [JNI_OnLoad, hbad]
  · simp [JNI_OnLoad, hbad]
  · intro n
    simp [invoked, regTrace, JNI_OnLoad, hbad, Event.regIndex]

/-- Witness for C3: with `GetEnv` returning -2 (`JNI_EDETACHED`) the result
is the error token, the trace is the single fatal log line, and the first
registration function is not invoked. -/
theorem c3_getenv_failure_witness :
    (JNI_OnLoad hostNoEnv).1 = JNI_ERR ∧
      (JNI_OnLoad hostNoEnv).2 =
        [Event.fatalLog "TetheringJni" "ERROR: GetEnv failed"] ∧
      invoked hostNoEnv 1 = false := by
  have H := c3_getenv_failure hostNoEnv (by decide)
  exact ⟨H.1, H.2.1, H.2.2 1⟩

/-- C4: when the environment is available, the event trace of `JNI_OnLoad`
is exactly the registration calls up to and including the first failing one
(all four when none of the first three fails), in the fixed order, each
carrying the environment handle obtained at the start. -/
theorem c4_calls_in_order_same_env (h : Host)
    (hok : h.getEnvStatus = JNI_OK) :
    (JNI_OnLoad h).2 =
      (List.range (attemptedCalls h)).map (fun i => callEventOf h (i + 1)) := by
  simp only [JNI_OnLoad, attemptedCalls, hok]
  rw [if_neg (by simp)]
  split_ifs <;> rfl

/-- Witness for C4: for the all-zero host the trace is the four calls in
order, each carrying the environment handle 7. -/
theorem c4_calls_in_order_same_env_witness :
    (JNI_OnLoad hostAllZero).2 =
      (List.range (attemptedCalls hostAllZero)).map
        (fun i => callEventOf hostAllZero (i + 1)) :=
  c4_calls_in_order_same_env hostAllZero (by decide)

/-- C5: the outcome of `JNI_OnLoad` (result token and full event trace)
depends only on the environment-acquisition outcome, the environment handle,
and the SIGN of each of the four registration results: any two hosts that
agree on these produce identical outcomes, so any non-negative value
(including zero) continues the sequence, any negative value of any magnitude
fails it, and the magnitude is never interpreted or propagated. -/
theorem c5_sign_only (h h' : Host)
    (henv : h.getEnvStatus = h'.getEnvStatus)
    (hh : h.envHandle = h'.envHandle)
    (s1 : h.regTetheringUtils < 0 ↔ h'.regTetheringUtils < 0)
    (s2 : h.regBpfMap < 0 ↔ h'.regBpfMap < 0)
    (s3 : h.regTcUtils < 0 ↔ h'.regTcUtils < 0)
    (s4 : h.regBpfCoordinator < 0 ↔ h'.regBpfCoordinator < 0) :
    JNI_OnLoad h = JNI_OnLoad h' := by
  simp only [JNI_OnLoad, henv, hh, s1, s2, s3, s4]

/-- Witness for C5: results `(0, 1, 2, 3)` and `(5, 7, 0, 100)` with the same
environment give identical outcomes. -/
theorem c5_sign_only_witness :
    JNI_OnLoad ⟨0, 7, 0, 1, 2, 3, 0⟩ = JNI_OnLoad ⟨0, 7, 5, 7, 0, 100, 0⟩ :=
  c5_sign_only ⟨0, 7, 0, 1, 2, 3, 0⟩ ⟨0, 7, 5, 7, 0, 100, 0⟩ (by decide)
    (by decide) (by decide) (by decide) (by decide) (by decide)

/-- C6: `JNI_OnLoad` never invokes the fifth declared registration function
(`BpfUtils`, index 5), performs at most four registration calls, and performs
exactly the four calls `[1, 2, 3, 4]` when the environment is available and
all four results are non-negative. -/
theorem c6_bpfutils_never_invoked (h : Host) :
    invoked h 5 = false ∧ (regTrace h).length ≤ 4 ∧
      (h.getEnvStatus = JNI_OK → 0 ≤ h.regTetheringUtils → 0 ≤ h.regBpfMap →
        0 ≤ h.regTcUtils → 0 ≤ h.regBpfCoordinator →
        regTrace h = [1, 2, 3, 4]) := by
  refine ⟨?_, ?_, ?_⟩
  · simp only [invoked, regTrace, JNI_OnLoad]
    split_ifs <;> simp [Event.regIndex, RegCall.index]
  · simp only [regTrace, JNI_OnLoad]
    split_ifs <;> simp [Event.regIndex]
  · intro hok h1 h2 h3 h4
    simp [regTrace, JNI_OnLoad, hok, not_lt.mpr h1, not_lt.mpr h2,
      not_lt.mpr h3, not_lt.mpr h4, Event.regIndex, RegCall.index]

/-- Witness for C6: for the all-zero host, `BpfUtils` is not invoked and the
call trace is exactly `[1, 2, 3, 4]`. -/
theorem c6_bpfutils_never_invoked_witness :
    invoked hostAllZero 5 = false ∧ regTrace hostAllZero = [1, 2, 3, 4] := by
  have H := c6_bpfutils_never_invoked hostAllZero
  exact ⟨H.1, H.2.2 (by decide) (by decide) (by decide) (by decide) (by decide)⟩

/-- C7: `JNI_OnLoad` emits exactly one fatal log line when environment
acquisition fails and none otherwise; in particular a registration failure
emits no log line. -/
theorem c7_log_only_on_getenv_failure (h : Host) :
    fatalLogCount h = if h.getEnvStatus = JNI_OK then 0 else 1 := by
  by_cases hok : h.getEnvStatus = JNI_OK
  · simp only [fatalLogCount, JNI_OnLoad, hok, if_pos]
    split_ifs <;> simp_all [Event.isFatalLog]
  · simp [fatalLogCount, JNI_OnLoad, hok, Event.isFatalLog]

/-- C8: `JNI_OnLoad` is deterministic: two invocations whose mocked
environment-acquisition outcome, environment handle and registration results
all agree return the same token and the same event trace. -/
theorem c8_deterministic (h h' : Host)
    (e1 : h.getEnvStatus = h'.getEnvStatus) (e2 : h.envHandle = h'.envHandle)
    (e3 : h.regTetheringUtils = h'.regTetheringUtils)
    (e4 : h.regBpfMap = h'.regBpfMap) (e5 : h.regTcUtils = h'.regTcUtils)
    (e6 : h.regBpfCoordinator = h'.regBpfCoordinator)
    (e7 : h.regBpfUtils = h'.regBpfUtils) :
    JNI_OnLoad h = JNI_OnLoad h' := by
  have : h = h' := by
    cases h; cases h'; simp_all
  rw [this]

/-- Witness for C8: two identical mocked hosts give identical outcomes. -/
theorem c8_deterministic_witness :
    JNI_OnLoad ⟨0, 9, 1, 2, 3, 4, 5⟩ = JNI_OnLoad ⟨0, 9, 1, 2, 3, 4, 5⟩ :=
  c8_deterministic ⟨0, 9, 1, 2, 3, 4, 5⟩ ⟨0, 9, 1, 2, 3, 4, 5⟩ rfl rfl rfl rfl
    rfl rfl rfl

/-- C9: every `BpfMap` registration call in any trace of `JNI_OnLoad`
carries exactly the class name
"com/android/networkstack/tethering/util/BpfMap", and every `TcUtils` call
carries exactly "com/android/networkstack/tethering/util/TcUtils" (the
tethering-util package names, despite the registration symbols' own
`net/module/util` package). -/
theorem c9_literal_class_names (h : Host) (env : Nat) (s : String) :
    (Event.call (RegCall.bpfMap env s) ∈ (JNI_OnLoad h).2 →
      s = "com/android/networkstack/tethering/util/BpfMap") ∧
    (Event.call (RegCall.tcUtils env s) ∈ (JNI_OnLoad h).2 →
      s = "com/android/networkstack/tethering/util/TcUtils") := by
  simp only [JNI_OnLoad]
  split_ifs <;> constructor <;> intro hmem <;> simp_all

/-- Witness for C9: for the all-zero host, the `BpfMap` call with the exact
literal class name is in the trace, and the theorem applies to it. -/
theorem c9_literal_class_names_witness :
    "com/android/networkstack/tethering/util/BpfMap" =
      "com/android/networkstack/tethering/util/BpfMap" ∧
    "com/android/networkstack/tethering/util/TcUtils" =
      "com/android/networkstack/tethering/util/TcUtils" :=
  ⟨(c9_literal_class_names hostAllZero 7
      "com/android/networkstack/tethering/util/BpfMap").1 (by decide),
   (c9_literal_class_names hostAllZero 7
      "com/android/networkstack/tethering/util/TcUtils").2 (by decide)⟩

/-- C10: `JNI_OnLoad` proceeds to the registration sequence (the first
registration function is invoked) exactly when `GetEnv` returns `JNI_OK`,
and for every other status — not merely one specific error code — it takes
the fatal-log-and-error path. -/
theorem c10_any_non_ok_status_fails (h : Host) :
    (invoked h 1 = true ↔ h.getEnvStatus = JNI_OK) ∧
    (h.getEnvStatus ≠ JNI_OK →
      (JNI_OnLoad h).1 = JNI_ERR ∧
      (JNI_OnLoad h).2 =
        [Event.fatalLog "TetheringJni" "ERROR: GetEnv failed"]) := by
  by_cases hok : h.getEnvStatus = JNI_OK
  · refine ⟨⟨fun _ => hok, fun _ => ?_⟩, fun hbad => absurd hok hbad⟩
    simp only [invoked, regTrace, JNI_OnLoad, hok]
    split_ifs <;> simp_all [Event.regIndex, RegCall.index]
  · refine ⟨⟨fun hinv => ?_, fun heq => absurd heq hok⟩, fun _ => ?_⟩
    · simp [invoked, regTrace, JNI_OnLoad, hok, Event.regIndex] at hinv
    · simp [JNI_OnLoad, hok]

/-- Witness for C10: with `GetEnv` returning -2 the first registration is not
invoked and the fatal path is taken (applies to a status other than the
specific code -1). -/
theorem c10_any_non_ok_status_fails_witness :
    (JNI_OnLoad hostNoEnv).1 = JNI_ERR ∧
      (JNI_OnLoad hostNoEnv).2 =
        [Event.fatalLog "TetheringJni" "ERROR: GetEnv failed"] :=
  (c10_any_non_ok_status_fails hostNoEnv).2 (by decide)

end Onload
